import Mathlib

/-!
# Treasury multi-signature transfer contract: a shallow embedding

This file embeds the treasury subsystem of the repository
(`packages/contracts/src/treasury/contract.rs` and
`packages/contracts/src/treasury/types.rs`, together with the error enum of
`packages/contracts/src/shared/mod.rs`) and proves properties of the
transfer-authorization state machine.

Modelling conventions:
* soroban `Address` values are `Nat`; `Address::zero(env)` is `0`.
* `Bytes` transfer ids and `Symbol` labels are opaque `Nat` tokens.
* `i128` is `Int`, `u32`/`u64` are `Nat` (no claim exercises overflow).
* The persistent instance storage keyed by transfer id is an association
  list; `mapSet`/`mapGet`/`mapRemove`/`mapHas` give the key-value-store
  semantics the contract relies on.
* The ledger clock `env.ledger().timestamp()` is the `now` field of the
  state; a dedicated `tick` call advances it between transactions.
* A Rust `panic!`/`panic_with_error!` aborts the enclosing transaction, so
  each entry point returns `Except Err TreasuryState`: `ok` is the committed
  post-state, `error` carries the panic and commits nothing
  (`stepCommit` keeps the pre-state on `error`).
* Event publication is observational only and is not modelled.
-/

set_option linter.unusedVariables false

namespace Reset

/-- Account identifier (soroban `Address`); `0` models `Address::zero`. -/
abbrev Address := Nat

/-- Transfer identifier (soroban `Bytes` key). -/
abbrev TransferId := Nat

/-- Opaque `Symbol` label (reasons attached to calls). -/
abbrev Label := Nat

/-- `ContractError` from `shared/mod.rs`. -/
inductive ContractError where
  | Unauthorized
  | InvalidInput
  | InsufficientBalance
  | PolicyNotFound
  | PolicyAlreadyExists
  | PolicyExpired
  | ClaimAlreadyProcessed
  | InvalidClaimAmount
  | ReentrantCall
  | InvalidState
  | TransferNotAuthorized
  | TransferAlreadyAuthorized
  | InsufficientApprovals
  | RiskScoreOutOfRange
deriving DecidableEq, Repr

/-- The bare `panic!("...")` messages appearing in the treasury contract,
as an enumeration (one constructor per distinct message string). -/
inductive PanicMsg where
  /-- "Transfer amount must be positive" / "Amount must be positive" -/
  | amountMustBePositive
  /-- "Transfer amount exceeds maximum limit for non-emergency transfers" -/
  | exceedsMaxLimit
  /-- "Invalid recipient address" -/
  | invalidRecipient
  /-- "Transfer is within cooldown period" -/
  | withinCooldownPeriod
  /-- "Transfer not found" -/
  | transferNotFound
  /-- "Allocation percentages must sum to 100" -/
  | allocationMustSum100
deriving DecidableEq, Repr

/-- A call failure: either a `panic_with_error!(ContractError)` or a bare
`panic!` with a message. Both abort and roll back the transaction. -/
inductive Err where
  | contract (e : ContractError)
  | panicked (m : PanicMsg)
deriving DecidableEq, Repr

/-- `TransferStatus` from `treasury/types.rs`. -/
inductive TransferStatus where
  | Pending
  | Approved
  | Executed
  | Rejected
  | Cancelled
  | Failed
deriving DecidableEq, Repr

/-- `TransferParams` from `treasury/types.rs`. -/
structure TransferParams where
  to_address : Address
  amount : Int
  reason : Label
  required_approvals : Option Nat
  is_emergency : Bool
deriving DecidableEq, Repr

/-- `PendingTransfer` from `treasury/types.rs`. -/
structure PendingTransfer where
  transfer_id : TransferId
  to_address : Address
  amount : Int
  reason : Label
  approvals : Nat
  required_approvals : Nat
  created_at : Nat
  executed_at : Option Nat
  status : TransferStatus
  approvers : List Address
  is_emergency : Bool
deriving DecidableEq, Repr

/-- `TreasuryStats` from `treasury/types.rs`. -/
structure TreasuryStats where
  total_balance : Int
  insurance_fund_balance : Int
  operational_fund_balance : Int
  pending_transfers : Nat
  executed_transfers : Nat
  total_transferred : Int
  emergency_fund_balance : Int
deriving DecidableEq, Repr

/-- `FundAllocation` from `treasury/types.rs` (percentages are `u32`). -/
structure FundAllocation where
  insurance_percentage : Nat
  operational_percentage : Nat
  emergency_percentage : Nat
deriving DecidableEq, Repr

/-- `FundAllocation::default()`: 60 / 30 / 10. -/
def FundAllocation.default : FundAllocation :=
  { insurance_percentage := 60, operational_percentage := 30, emergency_percentage := 10 }

/-- `PendingTransfer::new`: fresh record in `Pending` with no approvals;
`created_at` is the current ledger timestamp. -/
def PendingTransfer.new (transfer_id : TransferId) (params : TransferParams)
    (required_approvals : Nat) (now : Nat) : PendingTransfer :=
  { transfer_id := transfer_id
    to_address := params.to_address
    amount := params.amount
    reason := params.reason
    approvals := 0
    required_approvals := required_approvals
    created_at := now
    executed_at := none
    status := TransferStatus.Pending
    approvers := []
    is_emergency := params.is_emergency }

/-- `PendingTransfer::add_approval`: push the approver and bump the counter
only when the approver is not already present (`push_back` appends). -/
def PendingTransfer.add_approval (t : PendingTransfer) (approver : Address) : PendingTransfer :=
  if t.approvers.contains approver = false then
    { t with approvers := t.approvers ++ [approver], approvals := t.approvals + 1 }
  else t

/-- `PendingTransfer::has_sufficient_approvals`. -/
def PendingTransfer.has_sufficient_approvals (t : PendingTransfer) : Bool :=
  t.approvals ≥ t.required_approvals

/-- `PendingTransfer::has_approved`. -/
def PendingTransfer.has_approved (t : PendingTransfer) (approver : Address) : Bool :=
  t.approvers.contains approver

/-- `PendingTransfer::mark_as_approved`. -/
def PendingTransfer.mark_as_approved (t : PendingTransfer) : PendingTransfer :=
  { t with status := TransferStatus.Approved }

/-- `PendingTransfer::mark_as_executed`: stamps `executed_at` with the
current ledger timestamp. -/
def PendingTransfer.mark_as_executed (t : PendingTransfer) (now : Nat) : PendingTransfer :=
  { t with status := TransferStatus.Executed, executed_at := some now }

/-- `PendingTransfer::mark_as_rejected`. -/
def PendingTransfer.mark_as_rejected (t : PendingTransfer) : PendingTransfer :=
  { t with status := TransferStatus.Rejected }

/-- `PendingTransfer::cancel`. -/
def PendingTransfer.cancel (t : PendingTransfer) : PendingTransfer :=
  { t with status := TransferStatus.Cancelled }

/-- `PendingTransfer::mark_as_failed` (present in the source, never called). -/
def PendingTransfer.mark_as_failed (t : PendingTransfer) : PendingTransfer :=
  { t with status := TransferStatus.Failed }

/-- `PendingTransfer::is_pending`. -/
def PendingTransfer.is_pending (t : PendingTransfer) : Bool :=
  t.status == TransferStatus.Pending

/-- `PendingTransfer::can_be_executed`: `Approved` status AND sufficient
approvals. -/
def PendingTransfer.can_be_executed (t : PendingTransfer) : Bool :=
  (t.status == TransferStatus.Approved) && t.has_sufficient_approvals

/-- `PendingTransfer::age`: `now - created_at` (u64 arithmetic; the ledger
clock is monotone so the subtraction does not underflow). -/
def PendingTransfer.age (t : PendingTransfer) (now : Nat) : Nat :=
  now - t.created_at

/-- `PendingTransfer::is_emergency_transfer`. -/
def PendingTransfer.is_emergency_transfer (t : PendingTransfer) : Bool :=
  t.is_emergency

/-- `TreasuryStats::new`: all counters and balances zero. -/
def TreasuryStats.new : TreasuryStats :=
  { total_balance := 0
    insurance_fund_balance := 0
    operational_fund_balance := 0
    pending_transfers := 0
    executed_transfers := 0
    total_transferred := 0
    emergency_fund_balance := 0 }

/-- `TreasuryStats::add_funds`. -/
def TreasuryStats.add_funds (st : TreasuryStats) (amount : Int) : TreasuryStats :=
  { st with total_balance := st.total_balance + amount }

/-- `TreasuryStats::remove_funds` (`saturating_sub`; the treasury contract
never calls this — note that `execute_transfer` does not debit the
balance). Saturation clamps at `i128::MIN`. -/
def TreasuryStats.remove_funds (st : TreasuryStats) (amount : Int) : TreasuryStats :=
  { st with total_balance :=
      if st.total_balance - amount < -(2 ^ 127) then -(2 ^ 127)
      else st.total_balance - amount }

/-- `TreasuryStats::transfer_funds`: only adds to `total_transferred`
(the `from_account`/`to_account` string arguments of the source are unused
and omitted here); it does not touch `total_balance`. -/
def TreasuryStats.transfer_funds (st : TreasuryStats) (amount : Int) : TreasuryStats :=
  { st with total_transferred := st.total_transferred + amount }

/-- `TreasuryStats::increment_pending_transfers`. -/
def TreasuryStats.increment_pending_transfers (st : TreasuryStats) : TreasuryStats :=
  { st with pending_transfers := st.pending_transfers + 1 }

/-- `TreasuryStats::decrement_pending_transfers`: guarded so it never
underflows. -/
def TreasuryStats.decrement_pending_transfers (st : TreasuryStats) : TreasuryStats :=
  if st.pending_transfers > 0 then
    { st with pending_transfers := st.pending_transfers - 1 }
  else st

/-- `TreasuryStats::increment_executed_transfers`. -/
def TreasuryStats.increment_executed_transfers (st : TreasuryStats) : TreasuryStats :=
  { st with executed_transfers := st.executed_transfers + 1 }

/-- `TreasuryStats::rebalance_funds`: each sub-fund becomes
`total_balance * percentage / 100` with `i128` division (for the
non-negative balances of interest this is floor division). -/
def TreasuryStats.rebalance_funds (st : TreasuryStats) (allocation : FundAllocation) :
    TreasuryStats :=
  { st with
    insurance_fund_balance := st.total_balance * (allocation.insurance_percentage : Int) / 100
    operational_fund_balance := st.total_balance * (allocation.operational_percentage : Int) / 100
    emergency_fund_balance := st.total_balance * (allocation.emergency_percentage : Int) / 100 }

/-- The contract-wide persistent state: the fields of the `Treasury` struct
plus the ledger clock. -/
structure TreasuryState where
  pending_transfers : List (TransferId × PendingTransfer)
  stats : TreasuryStats
  owner : Address
  authorized_admins : List Address
  fund_allocation : FundAllocation
  emergency_shutdown : Bool
  max_transfer_amount : Int
  emergency_cooldown : Nat
  now : Nat
deriving DecidableEq, Repr

/-- Key-value store: does the map hold an entry for `k`? -/
def mapHas (m : List (TransferId × PendingTransfer)) (k : TransferId) : Bool :=
  m.any (fun p => p.1 == k)

/-- Key-value store: fetch the entry for `k`. -/
def mapGet (m : List (TransferId × PendingTransfer)) (k : TransferId) :
    Option PendingTransfer :=
  (m.find? (fun p => p.1 == k)).map Prod.snd

/-- Key-value store: delete the entry for `k`. -/
def mapRemove (m : List (TransferId × PendingTransfer)) (k : TransferId) :
    List (TransferId × PendingTransfer) :=
  m.filter (fun p => p.1 != k)

/-- Key-value store: insert-or-update the entry for `k`. -/
def mapSet (m : List (TransferId × PendingTransfer)) (k : TransferId)
    (v : PendingTransfer) : List (TransferId × PendingTransfer) :=
  (k, v) :: mapRemove m k

/-- Getter `get_owner`. -/
def get_owner (s : TreasuryState) : Address := s.owner

/-- Getter `get_authorized_admins`. -/
def get_authorized_admins (s : TreasuryState) : List Address := s.authorized_admins

/-- Getter `get_stats`. -/
def get_stats (s : TreasuryState) : TreasuryStats := s.stats

/-- Getter `get_fund_allocation`. -/
def get_fund_allocation (s : TreasuryState) : FundAllocation := s.fund_allocation

/-- Getter `get_max_transfer_amount`. -/
def get_max_transfer_amount (s : TreasuryState) : Int := s.max_transfer_amount

/-- Getter `get_emergency_cooldown`. -/
def get_emergency_cooldown (s : TreasuryState) : Nat := s.emergency_cooldown

/-- Getter `is_emergency_shutdown`. -/
def is_emergency_shutdown (s : TreasuryState) : Bool := s.emergency_shutdown

/-- `get_treasury_balance`: reads `stats.total_balance`. -/
def get_treasury_balance (s : TreasuryState) : Int := s.stats.total_balance

/-- `require_admin`: panics with `Unauthorized` unless the caller is in
`authorized_admins`. -/
def require_admin (s : TreasuryState) (caller : Address) : Except Err Unit :=
  if (get_authorized_admins s).contains caller = true then Except.ok ()
  else Except.error (Err.contract ContractError.Unauthorized)

/-- `require_owner`: panics with `Unauthorized` unless the caller is the
owner. -/
def require_owner (s : TreasuryState) (caller : Address) : Except Err Unit :=
  if caller = get_owner s then Except.ok ()
  else Except.error (Err.contract ContractError.Unauthorized)

/-- `get_pending_transfer`: fetches the record or panics
("Transfer not found"). -/
def get_pending_transfer (s : TreasuryState) (transfer_id : TransferId) :
    Except Err PendingTransfer :=
  match mapGet s.pending_transfers transfer_id with
  | some t => Except.ok t
  | none => Except.error (Err.panicked PanicMsg.transferNotFound)

/-- `get_transfer_submitter`: the source comments "Simplified - in
production, track who submitted each transfer" and simply returns the
owner, ignoring the record. -/
def get_transfer_submitter (s : TreasuryState) (transfer : PendingTransfer) : Address :=
  get_owner s

/-- `validate_transfer_params`: positive amount; the ceiling applies only
to non-emergency transfers; the recipient must not be the zero address. -/
def validate_transfer_params (s : TreasuryState) (params : TransferParams) :
    Except Err Unit :=
  if params.amount ≤ 0 then
    Except.error (Err.panicked PanicMsg.amountMustBePositive)
  else if params.amount > get_max_transfer_amount s ∧ params.is_emergency = false then
    Except.error (Err.panicked PanicMsg.exceedsMaxLimit)
  else if params.to_address = 0 then
    Except.error (Err.panicked PanicMsg.invalidRecipient)
  else Except.ok ()

/-- `get_default_required_approvals`: `(n + 1) / 2` for emergencies, all
`n` admins otherwise. -/
def get_default_required_approvals (s : TreasuryState) (params : TransferParams) : Nat :=
  if params.is_emergency = true then ((get_authorized_admins s).length + 1) / 2
  else (get_authorized_admins s).length

/-- The two quorum bindings of `submit_transfer` (contract.rs lines 76-84):
take the explicit override or the default, then halve with rounding up when
the submission is flagged emergency. -/
def emergency_adjusted_approvals (s : TreasuryState) (params : TransferParams) : Nat :=
  let required_approvals := params.required_approvals.getD (get_default_required_approvals s params)
  if params.is_emergency = true then (required_approvals + 1) / 2
  else required_approvals

/-- The record value `submit_transfer` stores (contract.rs lines 87-98):
a fresh `Pending` record, auto-approved and marked `Approved` when the
submitting admin is the owner and the amount is within the ceiling. -/
def submit_stored_transfer (s : TreasuryState) (admin : Address) (transfer_id : TransferId)
    (params : TransferParams) : PendingTransfer :=
  let transfer := PendingTransfer.new transfer_id params (emergency_adjusted_approvals s params) s.now
  if admin = get_owner s ∧ params.amount ≤ get_max_transfer_amount s then
    (transfer.add_approval admin).mark_as_approved
  else transfer

/-- The state `submit_transfer` reaches just before its auto-execute check
(contract.rs lines 100-106): record stored, pending counter bumped. -/
def submit_pre_exec_state (s : TreasuryState) (admin : Address) (transfer_id : TransferId)
    (params : TransferParams) : TreasuryState :=
  let s1 : TreasuryState :=
    { s with pending_transfers :=
        mapSet s.pending_transfers transfer_id (submit_stored_transfer s admin transfer_id params) }
  { s1 with stats := (get_stats s1).increment_pending_transfers }

/-- `execute_transfer` (contract.rs lines 181-228). Requires an executable
record; enforces the cooldown for non-emergency records and the balance
check; on success marks the record executed, updates the statistics
(decrement pending, increment executed, add to `total_transferred`) and
removes the record from the pending map. Note the success path updates
`total_transferred` only — `total_balance` is left untouched. -/
def execute_transfer (s : TreasuryState) (admin : Address) (transfer_id : TransferId) :
    Except Err TreasuryState :=
  match require_admin s admin with
  | Except.error e => Except.error e
  | Except.ok _ =>
    match get_pending_transfer s transfer_id with
    | Except.error e => Except.error e
    | Except.ok transfer =>
      if transfer.can_be_executed = false then
        Except.error (Err.contract ContractError.TransferNotAuthorized)
      else if transfer.is_emergency_transfer = false ∧
          transfer.age s.now < get_emergency_cooldown s then
        Except.error (Err.panicked PanicMsg.withinCooldownPeriod)
      else if get_treasury_balance s < transfer.amount then
        Except.error (Err.contract ContractError.InsufficientBalance)
      else
        let transfer2 := transfer.mark_as_executed s.now
        let stats :=
          (((get_stats s).decrement_pending_transfers).increment_executed_transfers).transfer_funds
            transfer.amount
        Except.ok { s with
          stats := stats
          pending_transfers := mapRemove s.pending_transfers transfer_id }

/-- `submit_transfer` (contract.rs lines 59-123). Admin gate, shutdown
gate (emergencies exempt), duplicate-id gate, parameter validation, quorum
computation, owner auto-approve, store, pending counter bump, then the
auto-execute check. The source writes the chained call as
`Self::execute_transfer(env, transfer_id, admin)` against the declared
signature `(env, admin, transfer_id)`; the model applies the intended
roles (that admin executing that transfer id). -/
def submit_transfer (s : TreasuryState) (admin : Address) (transfer_id : TransferId)
    (params : TransferParams) : Except Err TreasuryState :=
  match require_admin s admin with
  | Except.error e => Except.error e
  | Except.ok _ =>
    if is_emergency_shutdown s = true ∧ params.is_emergency = false then
      Except.error (Err.contract ContractError.InvalidState)
    else if mapHas s.pending_transfers transfer_id = true then
      Except.error (Err.contract ContractError.InvalidInput)
    else
      match validate_transfer_params s params with
      | Except.error e => Except.error e
      | Except.ok _ =>
        let transfer := submit_stored_transfer s admin transfer_id params
        let s2 := submit_pre_exec_state s admin transfer_id params
        if transfer.can_be_executed = true then
          execute_transfer s2 admin transfer_id
        else
          Except.ok s2

/-- `approve_transfer` (contract.rs lines 131-174). Admin gate; record must
exist and be `Pending`; duplicate approvals panic with
`TransferAlreadyAuthorized`; otherwise the approval is added and stored,
the pending counter is decremented once the approvals suffice, and the
auto-execute check runs (same swapped-argument note as in
`submit_transfer`). -/
def approve_transfer (s : TreasuryState) (admin : Address) (transfer_id : TransferId)
    (reason : Label) : Except Err TreasuryState :=
  match require_admin s admin with
  | Except.error e => Except.error e
  | Except.ok _ =>
    match get_pending_transfer s transfer_id with
    | Except.error e => Except.error e
    | Except.ok transfer0 =>
      if transfer0.is_pending = false then
        Except.error (Err.contract ContractError.InvalidState)
      else if transfer0.has_approved admin = true then
        Except.error (Err.contract ContractError.TransferAlreadyAuthorized)
      else
        let transfer := transfer0.add_approval admin
        let s1 : TreasuryState :=
          { s with pending_transfers := mapSet s.pending_transfers transfer_id transfer }
        let stats :=
          if transfer.has_sufficient_approvals = true then
            (get_stats s1).decrement_pending_transfers
          else get_stats s1
        let s2 : TreasuryState := { s1 with stats := stats }
        if transfer.can_be_executed = true then
          execute_transfer s2 admin transfer_id
        else
          Except.ok s2

/-- `reject_transfer` (contract.rs lines 236-265): record must exist and be
`Pending`; the record is marked rejected (on a local copy that is then
dropped), the pending counter decremented and the record removed. -/
def reject_transfer (s : TreasuryState) (admin : Address) (transfer_id : TransferId)
    (reason : Label) : Except Err TreasuryState :=
  match require_admin s admin with
  | Except.error e => Except.error e
  | Except.ok _ =>
    match get_pending_transfer s transfer_id with
    | Except.error e => Except.error e
    | Except.ok transfer =>
      if transfer.is_pending = false then
        Except.error (Err.contract ContractError.InvalidState)
      else
        let s1 : TreasuryState := { s with stats := (get_stats s).decrement_pending_transfers }
        Except.ok { s1 with pending_transfers := mapRemove s1.pending_transfers transfer_id }

/-- `cancel_transfer` (contract.rs lines 273-308): like reject, but gated
on the caller being the "submitter" — which `get_transfer_submitter`
resolves to the owner — or the owner. -/
def cancel_transfer (s : TreasuryState) (admin : Address) (transfer_id : TransferId)
    (reason : Label) : Except Err TreasuryState :=
  match require_admin s admin with
  | Except.error e => Except.error e
  | Except.ok _ =>
    match get_pending_transfer s transfer_id with
    | Except.error e => Except.error e
    | Except.ok transfer =>
      if transfer.is_pending = false then
        Except.error (Err.contract ContractError.InvalidState)
      else if admin ≠ get_transfer_submitter s transfer ∧ admin ≠ get_owner s then
        Except.error (Err.contract ContractError.Unauthorized)
      else
        let s1 : TreasuryState := { s with stats := (get_stats s).decrement_pending_transfers }
        Except.ok { s1 with pending_transfers := mapRemove s1.pending_transfers transfer_id }

/-- `add_funds` (contract.rs lines 316-338): positive amounts only; adds to
the balance and rebalances the sub-funds. -/
def add_funds (s : TreasuryState) (sender : Address) (amount : Int) (reason : Label) :
    Except Err TreasuryState :=
  if amount ≤ 0 then Except.error (Err.panicked PanicMsg.amountMustBePositive)
  else
    let stats := (get_stats s).add_funds amount
    let stats := stats.rebalance_funds (get_fund_allocation s)
    Except.ok { s with stats := stats }

/-- `emergency_shutdown` (contract.rs lines 345-356): owner-only toggle on. -/
def emergency_shutdown_on (s : TreasuryState) (caller : Address) (reason : Label) :
    Except Err TreasuryState :=
  match require_owner s caller with
  | Except.error e => Except.error e
  | Except.ok _ => Except.ok { s with emergency_shutdown := true }

/-- `disable_emergency_shutdown` (contract.rs lines 363-374). -/
def disable_emergency_shutdown (s : TreasuryState) (caller : Address) (reason : Label) :
    Except Err TreasuryState :=
  match require_owner s caller with
  | Except.error e => Except.error e
  | Except.ok _ => Except.ok { s with emergency_shutdown := false }

/-- `update_fund_allocation` (contract.rs lines 381-403): owner-only; the
three percentages must sum to 100; stores the allocation and rebalances. -/
def update_fund_allocation (s : TreasuryState) (caller : Address)
    (allocation : FundAllocation) : Except Err TreasuryState :=
  match require_owner s caller with
  | Except.error e => Except.error e
  | Except.ok _ =>
    if allocation.insurance_percentage + allocation.operational_percentage +
        allocation.emergency_percentage ≠ 100 then
      Except.error (Err.panicked PanicMsg.allocationMustSum100)
    else
      let s1 : TreasuryState := { s with fund_allocation := allocation }
      Except.ok { s1 with stats := (get_stats s1).rebalance_funds allocation }

/-- `update_max_transfer_amount` (contract.rs lines 471-474). -/
def update_max_transfer_amount (s : TreasuryState) (caller : Address) (amount : Int) :
    Except Err TreasuryState :=
  match require_owner s caller with
  | Except.error e => Except.error e
  | Except.ok _ => Except.ok { s with max_transfer_amount := amount }

/-- `update_emergency_cooldown` (contract.rs lines 477-480). -/
def update_emergency_cooldown (s : TreasuryState) (caller : Address) (cooldown : Nat) :
    Except Err TreasuryState :=
  match require_owner s caller with
  | Except.error e => Except.error e
  | Except.ok _ => Except.ok { s with emergency_cooldown := cooldown }

/-- One external transaction against the treasury. `tick` models the
ledger clock advancing between transactions. -/
inductive Call where
  | submit (admin : Address) (transfer_id : TransferId) (params : TransferParams)
  | approve (admin : Address) (transfer_id : TransferId) (reason : Label)
  | execute (admin : Address) (transfer_id : TransferId)
  | reject (admin : Address) (transfer_id : TransferId) (reason : Label)
  | cancel (admin : Address) (transfer_id : TransferId) (reason : Label)
  | deposit (sender : Address) (amount : Int) (reason : Label)
  | shutdownOn (caller : Address) (reason : Label)
  | shutdownOff (caller : Address) (reason : Label)
  | setAllocation (caller : Address) (allocation : FundAllocation)
  | setMaxAmount (caller : Address) (amount : Int)
  | setCooldown (caller : Address) (cooldown : Nat)
  | tick (dt : Nat)
deriving DecidableEq, Repr

/-- Dispatch a call to the corresponding entry point. -/
def applyCall (s : TreasuryState) : Call → Except Err TreasuryState
  | Call.submit admin transfer_id params => submit_transfer s admin transfer_id params
  | Call.approve admin transfer_id reason => approve_transfer s admin transfer_id reason
  | Call.execute admin transfer_id => execute_transfer s admin transfer_id
  | Call.reject admin transfer_id reason => reject_transfer s admin transfer_id reason
  | Call.cancel admin transfer_id reason => cancel_transfer s admin transfer_id reason
  | Call.deposit sender amount reason => add_funds s sender amount reason
  | Call.shutdownOn caller reason => emergency_shutdown_on s caller reason
  | Call.shutdownOff caller reason => disable_emergency_shutdown s caller reason
  | Call.setAllocation caller allocation => update_fund_allocation s caller allocation
  | Call.setMaxAmount caller amount => update_max_transfer_amount s caller amount
  | Call.setCooldown caller cooldown => update_emergency_cooldown s caller cooldown
  | Call.tick dt => Except.ok { s with now := s.now + dt }

/-- Transaction semantics: a panic reverts, so an `error` result commits
the pre-call state unchanged. -/
def stepCommit (s : TreasuryState) (c : Call) : TreasuryState :=
  match applyCall s c with
  | Except.ok s2 => s2
  | Except.error _ => s

/-- Run a sequence of transactions. -/
def run (s : TreasuryState) (cs : List Call) : TreasuryState :=
  cs.foldl stepCommit s

/-- `__constructor` (contract.rs lines 38-51): empty map, zero statistics,
default allocation, ceiling 10000, cooldown 3600, no shutdown. -/
def initState (owner : Address) (admins : List Address) : TreasuryState :=
  { pending_transfers := []
    stats := TreasuryStats.new
    owner := owner
    authorized_admins := admins
    fund_allocation := FundAllocation.default
    emergency_shutdown := false
    max_transfer_amount := 10000
    emergency_cooldown := 3600
    now := 0 }

end Reset

namespace Reset

/-- The quorum formula as the specification words it (§4.1): the explicit
override if supplied, else all current approvers for a regular transfer,
else the rounded-up half of the approver set for an emergency; a submission
flagged emergency halves the base again, rounding up
(`(x + 1) / 2 = ceil(x / 2)` on naturals). -/
def specRequiredApprovals (approver_set_size : Nat) (explicit_override : Option Nat)
    (is_emergency : Bool) : Nat :=
  let base :=
    match explicit_override with
    | some v => v
    | none =>
      if is_emergency then (approver_set_size + 1) / 2 else approver_set_size
  if is_emergency then (base + 1) / 2 else base

/-- Conditions under which a `submit_transfer` call passes every guard,
takes the owner auto-approve fast path, stores a record that satisfies
`can_be_executed`, and the chained `execute_transfer` then fails: either
the record is non-emergency and a positive cooldown window applies (a
just-created record has age 0), or the ledger balance cannot cover the
amount. -/
def submit_chain_exec_fails (s : TreasuryState) (admin : Address) (id : TransferId)
    (p : TransferParams) : Prop :=
  s.authorized_admins.contains admin = true ∧
  ¬(is_emergency_shutdown s = true ∧ p.is_emergency = false) ∧
  mapHas s.pending_transfers id = false ∧
  0 < p.amount ∧ p.amount ≤ get_max_transfer_amount s ∧ p.to_address ≠ 0 ∧
  admin = get_owner s ∧
  emergency_adjusted_approvals s p ≤ 1 ∧
  ((p.is_emergency = false ∧ 0 < get_emergency_cooldown s) ∨
    get_treasury_balance s < p.amount)

/-- The state `approve_transfer` reaches just before its auto-execute check
(contract.rs lines 147-158): approval stored, pending counter decremented
once the approvals suffice. -/
def approve_post_approval_state (s : TreasuryState) (admin : Address) (id : TransferId)
    (t : PendingTransfer) : TreasuryState :=
  { s with pending_transfers := mapSet s.pending_transfers id (t.add_approval admin),
           stats := if (t.add_approval admin).has_sufficient_approvals = true then
               s.stats.decrement_pending_transfers
             else s.stats }

/-- Conditions under which an `approve_transfer` call would reach a chained
auto-execution that fails: the guards pass, the updated record satisfies
`can_be_executed`, and the chained `execute_transfer` errors. (In this code
the `can_be_executed` conjunct is never satisfiable because the approve
path leaves the status `Pending`, so no approve call ever reaches a
chained execution.) -/
def approve_chain_exec_fails (s : TreasuryState) (admin : Address) (id : TransferId) : Prop :=
  ∃ t, mapGet s.pending_transfers id = some t ∧
    s.authorized_admins.contains admin = true ∧
    t.is_pending = true ∧ t.has_approved admin = false ∧
    (t.add_approval admin).can_be_executed = true ∧
    ∃ e, execute_transfer (approve_post_approval_state s admin id t) admin id = Except.error e

/-- The record-level bookkeeping invariant: the approval counter equals the
number of stored approvers, and no approver appears twice. -/
def approval_invariant (t : PendingTransfer) : Prop :=
  t.approvals = t.approvers.length ∧ t.approvers.Nodup

/-- Every record in the live pending map satisfies `approval_invariant`. -/
def state_invariant (s : TreasuryState) : Prop :=
  ∀ q ∈ s.pending_transfers, approval_invariant q.2

deriving instance DecidableEq for Except

/-- Fixture: a regular transfer of 100 to account 9 with no override. -/
def pReg : TransferParams :=
  { to_address := 9, amount := 100, reason := 0, required_approvals := none,
    is_emergency := false }

/-- Fixture: the record stored by a non-owner submit of `pReg` against a
single-admin treasury (quorum 1, no approvals yet). -/
def rF : PendingTransfer :=
  { transfer_id := 7, to_address := 9, amount := 100, reason := 0, approvals := 0,
    required_approvals := 1, created_at := 0, executed_at := none,
    status := TransferStatus.Pending, approvers := [], is_emergency := false }

/-- Fixture: treasury owned by 2 with sole admin 1. -/
def sA0 : TreasuryState := initState 2 [1]

/-- Fixture: `sA0` after admin 1 submits transfer 7 with `pReg`. -/
def sA1 : TreasuryState := stepCommit sA0 (Call.submit 1 7 pReg)

/-- Fixture: `sA1` after admin 1 approves transfer 7. -/
def sA2 : TreasuryState := stepCommit sA1 (Call.approve 1 7 0)

/-- Fixture: the record held by `sA2` — quorum reached yet still `Pending`. -/
def rA : PendingTransfer :=
  { transfer_id := 7, to_address := 9, amount := 100, reason := 0, approvals := 1,
    required_approvals := 1, created_at := 0, executed_at := none,
    status := TransferStatus.Pending, approvers := [1], is_emergency := false }

/-- Fixture: an executable record (`Approved`, quorum met) for 50 units. -/
def tB : PendingTransfer :=
  { transfer_id := 7, to_address := 9, amount := 50, reason := 0, approvals := 1,
    required_approvals := 1, created_at := 0, executed_at := none,
    status := TransferStatus.Approved, approvers := [1], is_emergency := false }

/-- Fixture: a treasury holding `tB` with balance 100, past the cooldown. -/
def sB : TreasuryState :=
  { pending_transfers := [(7, tB)],
    stats := { TreasuryStats.new with total_balance := 100, pending_transfers := 1 },
    owner := 2, authorized_admins := [1], fund_allocation := FundAllocation.default,
    emergency_shutdown := false, max_transfer_amount := 10000,
    emergency_cooldown := 3600, now := 5000 }

/-- Fixture: `sB` after admin 1 executes transfer 7. -/
def sB1 : TreasuryState := stepCommit sB (Call.execute 1 7)

/-- Fixture: treasury owned by 1 with admins 1 and 2. -/
def sC0 : TreasuryState := initState 1 [1, 2]

/-- Fixture: `sC0` after the owner submits transfer 7 with `pReg`. -/
def sC1 : TreasuryState := stepCommit sC0 (Call.submit 1 7 pReg)

/-- Fixture: the record held by `sC1` — auto-approved below quorum. -/
def rC : PendingTransfer :=
  { transfer_id := 7, to_address := 9, amount := 100, reason := 0, approvals := 1,
    required_approvals := 2, created_at := 0, executed_at := none,
    status := TransferStatus.Approved, approvers := [1], is_emergency := false }

/-- Fixture: treasury owned by 2 with admins 1 and 2. -/
def sD0 : TreasuryState := initState 2 [1, 2]

/-- Fixture: `sD0` after admin 1 (not the owner) submits transfer 7. -/
def sD1 : TreasuryState := stepCommit sD0 (Call.submit 1 7 pReg)

/-- Fixture: treasury whose owner 1 is also the sole admin. -/
def sE0 : TreasuryState := initState 1 [1]

/-- Fixture: statistics with balance 101 (odd, to exercise rounding). -/
def stW : TreasuryStats := { TreasuryStats.new with total_balance := 101 }

end Reset

namespace Reset

theorem mapGet_mapSet_self (m : List (TransferId × PendingTransfer)) (k : TransferId)
    (v : PendingTransfer) : mapGet (mapSet m k v) k = some v := by
  simp [mapGet, mapSet, List.find?]

theorem mapGet_mapRemove_self (m : List (TransferId × PendingTransfer)) (k : TransferId) :
    mapGet (mapRemove m k) k = none := by
  induction m with
  | nil => rfl
  | cons p rest ih =>
    by_cases h : p.1 = k
    · simpa [mapRemove, mapGet, h] using ih
    · simpa [mapRemove, mapGet, List.find?, h] using ih

theorem mem_mapRemove (m : List (TransferId × PendingTransfer)) (k : TransferId)
    (q : TransferId × PendingTransfer) (h : q ∈ mapRemove m k) : q ∈ m :=
  List.mem_of_mem_filter h

theorem mem_mapSet (m : List (TransferId × PendingTransfer)) (k : TransferId)
    (v : PendingTransfer) (q : TransferId × PendingTransfer) (h : q ∈ mapSet m k v) :
    q = (k, v) ∨ q ∈ m := by
  rcases List.mem_cons.mp h with h1 | h1
  · exact Or.inl h1
  · exact Or.inr (mem_mapRemove _ _ _ h1)

theorem mapGet_mem (m : List (TransferId × PendingTransfer)) (k : TransferId)
    (v : PendingTransfer) (h : mapGet m k = some v) : (k, v) ∈ m := by
  unfold mapGet at h
  cases hf : m.find? (fun p => p.1 == k) with
  | none => rw [hf] at h; cases h
  | some q =>
    rw [hf] at h
    have hq := List.mem_of_find?_eq_some hf
    have hp := List.find?_some hf
    simp at h hp
    have : q = (k, v) := by
      cases q; simp_all
    exact this ▸ hq

theorem contains_false_not_mem (l : List Address) (a : Address)
    (h : l.contains a = false) : ¬ a ∈ l := by
  simp [List.contains] at h
  simpa using h

theorem require_admin_ok (s : TreasuryState) (a : Address)
    (h : s.authorized_admins.contains a = true) : require_admin s a = Except.ok () := by
  have hm : a ∈ s.authorized_admins := by simpa using h
  simp [require_admin, get_authorized_admins, hm]

theorem validate_ok (s : TreasuryState) (p : TransferParams)
    (h1 : 0 < p.amount) (h2 : p.amount ≤ get_max_transfer_amount s ∨ p.is_emergency = true)
    (h3 : p.to_address ≠ 0) : validate_transfer_params s p = Except.ok () := by
  have hA : ¬ p.amount ≤ 0 := by omega
  have hB : ¬ (p.amount > get_max_transfer_amount s ∧ p.is_emergency = false) := by
    rcases h2 with h | h
    · intro hc
      obtain ⟨hc1, hc2⟩ := hc
      omega
    · intro hc
      obtain ⟨hc1, hc2⟩ := hc
      rw [h] at hc2
      cases hc2
  unfold validate_transfer_params
  rw [if_neg hA, if_neg hB, if_neg h3]

theorem submit_unroll (s : TreasuryState) (admin : Address) (id : TransferId)
    (p : TransferParams)
    (hadm : s.authorized_admins.contains admin = true)
    (hsd : ¬(is_emergency_shutdown s = true ∧ p.is_emergency = false))
    (hfresh : mapHas s.pending_transfers id = false)
    (hpos : 0 < p.amount)
    (hmax : p.amount ≤ get_max_transfer_amount s ∨ p.is_emergency = true)
    (hto : p.to_address ≠ 0) :
    submit_transfer s admin id p =
      if (submit_stored_transfer s admin id p).can_be_executed = true then
        execute_transfer (submit_pre_exec_state s admin id p) admin id
      else
        Except.ok (submit_pre_exec_state s admin id p) := by
  unfold submit_transfer
  rw [require_admin_ok s admin hadm, validate_ok s p hpos hmax hto]
  simp [hsd, hfresh]

theorem execute_ok_shape (s : TreasuryState) (a : Address) (id : TransferId)
    (s2 : TreasuryState) (h : execute_transfer s a id = Except.ok s2) :
    s2.pending_transfers = mapRemove s.pending_transfers id ∧
    s2.stats.total_balance = s.stats.total_balance ∧
    s2.authorized_admins = s.authorized_admins := by
  unfold execute_transfer at h
  split at h
  · cases h
  · split at h
    · cases h
    · split at h
      · cases h
      · split at h
        · cases h
        · split at h
          · cases h
          · cases h
            simp [get_stats, TreasuryStats.decrement_pending_transfers,
              TreasuryStats.increment_executed_transfers, TreasuryStats.transfer_funds]
            split <;> simp

theorem execute_err_of_cooldown (s : TreasuryState) (a : Address) (id : TransferId)
    (t : PendingTransfer)
    (hadm : s.authorized_admins.contains a = true)
    (hget : mapGet s.pending_transfers id = some t)
    (hcan : t.can_be_executed = true)
    (hfail : (t.is_emergency = false ∧ t.age s.now < get_emergency_cooldown s) ∨
      get_treasury_balance s < t.amount) :
    ∃ e, execute_transfer s a id = Except.error e := by
  unfold execute_transfer
  rw [require_admin_ok s a hadm]
  simp only [get_pending_transfer, hget]
  rw [if_neg (by simp [hcan])]
  by_cases hcd : t.is_emergency_transfer = false ∧ t.age s.now < get_emergency_cooldown s
  · rw [if_pos hcd]
    exact ⟨_, rfl⟩
  · rw [if_neg hcd]
    have hbal : get_treasury_balance s < t.amount := by
      rcases hfail with h | h
      · exact absurd (by simpa [PendingTransfer.is_emergency_transfer] using h) hcd
      · exact h
    rw [if_pos hbal]
    exact ⟨_, rfl⟩

theorem submit_stored_owner (s : TreasuryState) (admin : Address) (id : TransferId)
    (p : TransferParams) (hown : admin = get_owner s)
    (hmax : p.amount ≤ get_max_transfer_amount s) :
    submit_stored_transfer s admin id p =
      { transfer_id := id, to_address := p.to_address, amount := p.amount, reason := p.reason,
        approvals := 1, required_approvals := emergency_adjusted_approvals s p,
        created_at := s.now, executed_at := none, status := TransferStatus.Approved,
        approvers := [admin], is_emergency := p.is_emergency } := by
  simp [submit_stored_transfer, PendingTransfer.new, PendingTransfer.add_approval,
    PendingTransfer.mark_as_approved, hown, hmax]

theorem submit_pre_exec_fields (s : TreasuryState) (admin : Address) (id : TransferId)
    (p : TransferParams) :
    (submit_pre_exec_state s admin id p).pending_transfers =
      mapSet s.pending_transfers id (submit_stored_transfer s admin id p) ∧
    (submit_pre_exec_state s admin id p).authorized_admins = s.authorized_admins ∧
    (submit_pre_exec_state s admin id p).now = s.now ∧
    (submit_pre_exec_state s admin id p).emergency_cooldown = s.emergency_cooldown ∧
    (submit_pre_exec_state s admin id p).stats.total_balance = s.stats.total_balance := by
  simp [submit_pre_exec_state, get_stats, TreasuryStats.increment_pending_transfers]

theorem stored_required (s : TreasuryState) (admin : Address) (id : TransferId)
    (p : TransferParams) :
    (submit_stored_transfer s admin id p).required_approvals =
      emergency_adjusted_approvals s p := by
  unfold submit_stored_transfer
  split
  · simp [PendingTransfer.add_approval, PendingTransfer.mark_as_approved, PendingTransfer.new]
  · simp [PendingTransfer.new]

theorem adjusted_eq_spec (s : TreasuryState) (p : TransferParams) :
    emergency_adjusted_approvals s p =
      specRequiredApprovals s.authorized_admins.length p.required_approvals p.is_emergency := by
  unfold emergency_adjusted_approvals specRequiredApprovals get_default_required_approvals
    get_authorized_admins
  cases p.required_approvals <;> cases hp : p.is_emergency <;> simp [hp]

end Reset

namespace Reset

theorem inv_new (id : TransferId) (p : TransferParams) (req now : Nat) :
    approval_invariant (PendingTransfer.new id p req now) := by
  simp [PendingTransfer.new, approval_invariant]

theorem inv_add (t : PendingTransfer) (a : Address) (h : approval_invariant t) :
    approval_invariant (t.add_approval a) := by
  unfold PendingTransfer.add_approval
  split
  · rename_i hc
    obtain ⟨h1, h2⟩ := h
    have hnm : ¬ a ∈ t.approvers := contains_false_not_mem _ _ hc
    constructor
    · simp [h1]
    · simp [List.nodup_append, h2]
      intro hmem
      exact absurd hmem hnm
  · exact h

theorem inv_mark_approved (t : PendingTransfer) (h : approval_invariant t) :
    approval_invariant t.mark_as_approved := by
  simpa [approval_invariant, PendingTransfer.mark_as_approved] using h

theorem inv_stored (s : TreasuryState) (admin : Address) (id : TransferId)
    (p : TransferParams) : approval_invariant (submit_stored_transfer s admin id p) := by
  unfold submit_stored_transfer
  split
  · exact inv_mark_approved _ (inv_add _ _ (inv_new _ _ _ _))
  · exact inv_new _ _ _ _

theorem submit_ok_pending (s : TreasuryState) (a : Address) (id : TransferId)
    (p : TransferParams) (s2 : TreasuryState) (h : submit_transfer s a id p = Except.ok s2) :
    s2.pending_transfers = mapSet s.pending_transfers id (submit_stored_transfer s a id p) ∨
    s2.pending_transfers =
      mapRemove (mapSet s.pending_transfers id (submit_stored_transfer s a id p)) id := by
  obtain ⟨hpend, -, -, -, -⟩ := submit_pre_exec_fields s a id p
  unfold submit_transfer at h
  split at h
  · cases h
  · split at h
    · cases h
    · split at h
      · cases h
      · split at h
        · cases h
        · simp only [] at h
          split at h
          · obtain ⟨hrm, -, -⟩ := execute_ok_shape _ _ _ _ h
            right
            rw [hrm, hpend]
          · cases h
            left
            exact hpend

theorem approve_ok_pending (s : TreasuryState) (a : Address) (id : TransferId) (rs : Label)
    (s2 : TreasuryState) (h : approve_transfer s a id rs = Except.ok s2) :
    ∃ t, mapGet s.pending_transfers id = some t ∧
      (s2.pending_transfers = mapSet s.pending_transfers id (t.add_approval a) ∨
       s2.pending_transfers = mapRemove (mapSet s.pending_transfers id (t.add_approval a)) id) := by
  unfold approve_transfer at h
  split at h
  · cases h
  · split at h
    · cases h
    · rename_i transfer0 heq
      have hg : mapGet s.pending_transfers id = some transfer0 := by
        unfold get_pending_transfer at heq
        cases hmg : mapGet s.pending_transfers id with
        | none => rw [hmg] at heq; cases heq
        | some v => rw [hmg] at heq; cases heq; rfl
      refine ⟨transfer0, hg, ?_⟩
      split at h
      · cases h
      · split at h
        · cases h
        · simp only [] at h
          split at h
          · obtain ⟨hrm, -, -⟩ := execute_ok_shape _ _ _ _ h
            right
            rw [hrm]
          · cases h
            left
            rfl

theorem reject_ok_pending (s : TreasuryState) (a : Address) (id : TransferId) (rs : Label)
    (s2 : TreasuryState) (h : reject_transfer s a id rs = Except.ok s2) :
    s2.pending_transfers = mapRemove s.pending_transfers id := by
  unfold reject_transfer at h
  split at h
  · cases h
  · split at h
    · cases h
    · split at h
      · cases h
      · cases h
        rfl

theorem cancel_ok_pending (s : TreasuryState) (a : Address) (id : TransferId) (rs : Label)
    (s2 : TreasuryState) (h : cancel_transfer s a id rs = Except.ok s2) :
    s2.pending_transfers = mapRemove s.pending_transfers id := by
  unfold cancel_transfer at h
  split at h
  · cases h
  · split at h
    · cases h
    · split at h
      · cases h
      · split at h
        · cases h
        · cases h
          rfl

theorem deposit_ok_pending (s : TreasuryState) (a : Address) (amount : Int) (rs : Label)
    (s2 : TreasuryState) (h : add_funds s a amount rs = Except.ok s2) :
    s2.pending_transfers = s.pending_transfers := by
  unfold add_funds at h
  split at h
  · cases h
  · cases h
    rfl

theorem config_ok_pending (s : TreasuryState) (c : Call) (s2 : TreasuryState)
    (hc : (∃ a rs, c = Call.shutdownOn a rs) ∨ (∃ a rs, c = Call.shutdownOff a rs) ∨
      (∃ a al, c = Call.setAllocation a al) ∨ (∃ a v, c = Call.setMaxAmount a v) ∨
      (∃ a v, c = Call.setCooldown a v) ∨ (∃ d, c = Call.tick d))
    (h : applyCall s c = Except.ok s2) :
    s2.pending_transfers = s.pending_transfers := by
  rcases hc with ⟨a, rs, rfl⟩ | ⟨a, rs, rfl⟩ | ⟨a, al, rfl⟩ | ⟨a, v, rfl⟩ | ⟨a, v, rfl⟩ | ⟨d, rfl⟩ <;>
    simp only [applyCall] at h
  · unfold emergency_shutdown_on at h
    split at h
    · cases h
    · cases h; rfl
  · unfold disable_emergency_shutdown at h
    split at h
    · cases h
    · cases h; rfl
  · unfold update_fund_allocation at h
    split at h
    · cases h
    · split at h
      · cases h
      · cases h; rfl
  · unfold update_max_transfer_amount at h
    split at h
    · cases h
    · cases h; rfl
  · unfold update_emergency_cooldown at h
    split at h
    · cases h
    · cases h; rfl
  · cases h; rfl

theorem state_invariant_step (s : TreasuryState) (c : Call) (h : state_invariant s) :
    state_invariant (stepCommit s c) := by
  unfold stepCommit
  cases hc : applyCall s c with
  | error e => exact h
  | ok s2 =>
    intro q hq
    cases c with
    | submit a id p =>
      rcases submit_ok_pending s a id p s2 hc with hp | hp
      · rw [hp] at hq
        rcases mem_mapSet _ _ _ _ hq with rfl | hmem
        · exact inv_stored s a id p
        · exact h _ hmem
      · rw [hp] at hq
        rcases mem_mapSet _ _ _ _ (mem_mapRemove _ _ _ hq) with rfl | hmem
        · exact inv_stored s a id p
        · exact h _ hmem
    | approve a id rs =>
      obtain ⟨t, hg, hp | hp⟩ := approve_ok_pending s a id rs s2 hc
      all_goals rw [hp] at hq
      · rcases mem_mapSet _ _ _ _ hq with rfl | hmem
        · exact inv_add _ _ (h _ (mapGet_mem _ _ _ hg))
        · exact h _ hmem
      · rcases mem_mapSet _ _ _ _ (mem_mapRemove _ _ _ hq) with rfl | hmem
        · exact inv_add _ _ (h _ (mapGet_mem _ _ _ hg))
        · exact h _ hmem
    | execute a id =>
      obtain ⟨hp, -, -⟩ := execute_ok_shape _ _ _ _ hc
      rw [hp] at hq
      exact h _ (mem_mapRemove _ _ _ hq)
    | reject a id rs =>
      rw [reject_ok_pending s a id rs s2 hc] at hq
      exact h _ (mem_mapRemove _ _ _ hq)
    | cancel a id rs =>
      rw [cancel_ok_pending s a id rs s2 hc] at hq
      exact h _ (mem_mapRemove _ _ _ hq)
    | deposit a amount rs =>
      rw [deposit_ok_pending s a amount rs s2 hc] at hq
      exact h _ hq
    | shutdownOn a rs =>
      rw [config_ok_pending s _ s2 (Or.inl ⟨a, rs, rfl⟩) hc] at hq
      exact h _ hq
    | shutdownOff a rs =>
      rw [config_ok_pending s _ s2 (Or.inr (Or.inl ⟨a, rs, rfl⟩)) hc] at hq
      exact h _ hq
    | setAllocation a al =>
      rw [config_ok_pending s _ s2 (Or.inr (Or.inr (Or.inl ⟨a, al, rfl⟩))) hc] at hq
      exact h _ hq
    | setMaxAmount a v =>
      rw [config_ok_pending s _ s2 (Or.inr (Or.inr (Or.inr (Or.inl ⟨a, v, rfl⟩)))) hc] at hq
      exact h _ hq
    | setCooldown a v =>
      rw [config_ok_pending s _ s2 (Or.inr (Or.inr (Or.inr (Or.inr (Or.inl ⟨a, v, rfl⟩))))) hc] at hq
      exact h _ hq
    | tick d =>
      rw [config_ok_pending s _ s2 (Or.inr (Or.inr (Or.inr (Or.inr (Or.inr ⟨d, rfl⟩))))) hc] at hq
      exact h _ hq

theorem state_invariant_run (s : TreasuryState) (cs : List Call) (h : state_invariant s) :
    state_invariant (run s cs) := by
  induction cs generalizing s with
  | nil => exact h
  | cons c rest ih => exact ih (stepCommit s c) (state_invariant_step s c h)

end Reset

namespace Reset

/-- C1: the claim states that once an approval brings `approvals_count` up
to `required_approvals`, the record transitions to `Approved` and execution
is attempted in the same call. The code evaluation below refutes the
second half: admin 1 approves the pending quorum-1 transfer 7, the
approver is added and the counter incremented (first half holds), yet the
stored record still has status `Pending` — `approve_transfer` never calls
`mark_as_approved`, so `can_be_executed` is false and the chained
execution is skipped; no transfer is ever executed. -/
theorem c1_quorum_reached_but_no_transition_no_execution :
    submit_transfer sA0 1 7 pReg = Except.ok sA1 ∧
    approve_transfer sA1 1 7 0 = Except.ok sA2 ∧
    mapGet sA2.pending_transfers 7 = some rA ∧
    rA.approvals = 1 ∧ rA.approvers = [1] ∧
    rA.approvals ≥ rA.required_approvals ∧
    rA.status = TransferStatus.Pending ∧
    rA.status ≠ TransferStatus.Approved ∧
    sA2.stats.executed_transfers = 0 ∧
    sA2.stats.total_transferred = 0 := by decide

/-- C2: the claim states that a successful `execute_transfer` decreases
`total_balance` by the record's amount. The code evaluation below shows a
successful execution (record removed from the pending index, pending count
decremented, executed count incremented, amount added to
`total_transferred`, `mark_as_executed` stamping status and timestamp)
that leaves `total_balance` at 100 instead of the claimed 50:
`TreasuryStats::transfer_funds` only increments `total_transferred`, and
`remove_funds` is never called. -/
theorem c2_execute_success_leaves_balance_undebited :
    execute_transfer sB 1 7 = Except.ok sB1 ∧
    sB1.stats.total_balance = 100 ∧
    sB1.stats.total_balance = sB.stats.total_balance ∧
    sB1.stats.executed_transfers = 1 ∧
    sB1.stats.pending_transfers = 0 ∧
    sB1.stats.total_transferred = 50 ∧
    mapGet sB1.pending_transfers 7 = none ∧
    (tB.mark_as_executed sB.now).status = TransferStatus.Executed ∧
    (tB.mark_as_executed sB.now).executed_at = some 5000 := by decide

/-- C3: for every `submit_transfer` or `approve_transfer` call whose
chained auto-execution fails (cooldown not elapsed for a non-emergency
record, or insufficient balance), the entire call returns an error and the
committed state is exactly the pre-call state — the stored record, the
approval, the ledger and the statistics are all rolled back. The submit
half is the live one; for approve, a failing chained execution is
unreachable (the updated record never satisfies `can_be_executed`), which
the second half establishes. -/
theorem c3_chained_auto_exec_failure_rolls_back_entire_call :
    (∀ s admin id p, submit_chain_exec_fails s admin id p →
      (∃ e, submit_transfer s admin id p = Except.error e) ∧
      stepCommit s (Call.submit admin id p) = s) ∧
    (∀ s admin id reason, approve_chain_exec_fails s admin id →
      (∃ e, approve_transfer s admin id reason = Except.error e) ∧
      stepCommit s (Call.approve admin id reason) = s) := by
  constructor
  · intro s admin id p hf
    obtain ⟨hadm, hsd, hfresh, hpos, hmax, hto, hown, hq, hfail⟩ := hf
    have hstored := submit_stored_owner s admin id p hown hmax
    have hcan : (submit_stored_transfer s admin id p).can_be_executed = true := by
      rw [hstored]
      simp [PendingTransfer.can_be_executed, PendingTransfer.has_sufficient_approvals]
      omega
    have hunroll := submit_unroll s admin id p hadm hsd hfresh hpos (Or.inl hmax) hto
    rw [if_pos hcan] at hunroll
    obtain ⟨hpend, hadms, hnow, hcd, hbal⟩ := submit_pre_exec_fields s admin id p
    have herr : ∃ e, execute_transfer (submit_pre_exec_state s admin id p) admin id
        = Except.error e := by
      apply execute_err_of_cooldown _ _ _ (submit_stored_transfer s admin id p)
      · rw [hadms]; exact hadm
      · rw [hpend]; exact mapGet_mapSet_self _ _ _
      · exact hcan
      · rcases hfail with ⟨hem, hcdpos⟩ | hb
        · left
          constructor
          · rw [hstored]; exact hem
          · rw [hstored]
            simp only [PendingTransfer.age, get_emergency_cooldown, hnow, hcd]
            simp only [get_emergency_cooldown] at hcdpos
            omega
        · right
          rw [hstored]
          simp [get_treasury_balance, hbal]
          exact hb
    obtain ⟨e, he⟩ := herr
    refine ⟨⟨e, by rw [hunroll]; exact he⟩, ?_⟩
    simp [stepCommit, applyCall, hunroll, he]
  · intro s admin id reason hf
    exfalso
    obtain ⟨t, hget, hadm, hpendg, happ, hcan, e, he⟩ := hf
    have hst : t.status = TransferStatus.Pending := by
      simpa [PendingTransfer.is_pending] using hpendg
    have : (t.add_approval admin).status = TransferStatus.Pending := by
      unfold PendingTransfer.add_approval
      split <;> simp [hst]
    rw [PendingTransfer.can_be_executed, this] at hcan
    simp at hcan

/-- C3 witness: the owner of a one-admin treasury submits a regular
transfer of 100; quorum is 1 so the auto-approved record is executable,
the chained execution hits the 3600-second cooldown at age 0, and the
entire submit call fails leaving the committed state untouched. -/
theorem c3_chained_auto_exec_failure_witness :
    (∃ e, submit_transfer sE0 1 7 pReg = Except.error e) ∧
    stepCommit sE0 (Call.submit 1 7 pReg) = sE0 := by
  exact c3_chained_auto_exec_failure_rolls_back_entire_call.1 sE0 1 7 pReg
    (by unfold submit_chain_exec_fails; decide)

/-- C4: the `required_approvals` stored on every record that a successful
submit leaves in the pending index equals the specification formula
(`specRequiredApprovals`): the explicit override if supplied, else all
admins for a regular transfer, else the rounded-up half for an emergency,
and an emergency submission halves the base once more with rounding up —
so an emergency transfer without an override stores
`ceil(ceil(n / 2) / 2)` for approver-set size `n`. -/
theorem c4_stored_required_approvals_matches_spec_formula
    (s : TreasuryState) (admin : Address) (id : TransferId) (p : TransferParams)
    (s2 : TreasuryState) (r : PendingTransfer)
    (hok : submit_transfer s admin id p = Except.ok s2)
    (hr : mapGet s2.pending_transfers id = some r) :
    r.required_approvals =
      specRequiredApprovals s.authorized_admins.length p.required_approvals p.is_emergency := by
  unfold submit_transfer at hok
  split at hok
  · cases hok
  · split at hok
    · cases hok
    · split at hok
      · cases hok
      · split at hok
        · cases hok
        · simp only [] at hok
          split at hok
          · obtain ⟨hrm, -, -⟩ := execute_ok_shape _ _ _ _ hok
            obtain ⟨hpend, -, -, -, -⟩ := submit_pre_exec_fields s admin id p
            rw [hrm, hpend] at hr
            rw [mapGet_mapRemove_self] at hr
            cases hr
          · cases hok
            obtain ⟨hpend, -, -, -, -⟩ := submit_pre_exec_fields s admin id p
            rw [hpend, mapGet_mapSet_self] at hr
            cases hr
            rw [stored_required, adjusted_eq_spec]

/-- C4 witness: admin 1 (not the owner) submits the regular transfer
`pReg` to the one-admin treasury `sA0`; the stored record `rF` carries
`required_approvals = 1`, matching the spec formula for set size 1 with no
override and no emergency flag. -/
theorem c4_stored_required_approvals_witness :
    rF.required_approvals =
      specRequiredApprovals sA0.authorized_admins.length pReg.required_approvals
        pReg.is_emergency := by
  have hg : mapGet sA1.pending_transfers 7 = some rF := by decide
  exact c4_stored_required_approvals_matches_spec_formula sA0 1 7 pReg sA1 rF (by decide) hg

/-- C5 counterexample: the claim states every owner submit with
`0 < amount ≤ ceiling` ends with status `Executed` in the same call. Here
the owner of a two-admin treasury submits `pReg` (amount 100 ≤ 10000, all
submit preconditions satisfied): the call succeeds but the stored record
has status `Approved` with 1 of 2 required approvals — not `Executed`,
and the executed counter stays 0. -/
theorem c5_owner_submit_not_executed_counterexample :
    sC0.owner = 1 ∧ sC0.authorized_admins.contains 1 = true ∧
    (0 : Int) < pReg.amount ∧ pReg.amount ≤ sC0.max_transfer_amount ∧
    submit_transfer sC0 1 7 pReg = Except.ok sC1 ∧
    mapGet sC1.pending_transfers 7 = some rC ∧
    rC.status = TransferStatus.Approved ∧
    rC.status ≠ TransferStatus.Executed ∧
    sC1.stats.executed_transfers = 0 := by decide

/-- C5 (amended): for every owner submit with `0 < amount ≤ ceiling` (and
the other submit preconditions satisfied) the record is auto-APPROVED —
the owner becomes its sole approver and the status is set to `Approved`
even below quorum — but auto-EXECUTION happens in the same call only when
the owner's single approval already meets `required_approvals`; with a
quorum of two or more the call ends with the record stored in status
`Approved`, and with quorum at most one the call defers to
`execute_transfer`, whose outcome (success, cooldown, or balance failure)
decides the call. -/
theorem c5_owner_submit_auto_approves_executes_only_at_quorum_one
    (s : TreasuryState) (admin : Address) (id : TransferId) (p : TransferParams)
    (hadm : s.authorized_admins.contains admin = true)
    (hsd : ¬(is_emergency_shutdown s = true ∧ p.is_emergency = false))
    (hfresh : mapHas s.pending_transfers id = false)
    (hpos : 0 < p.amount)
    (hmax : p.amount ≤ get_max_transfer_amount s)
    (hto : p.to_address ≠ 0)
    (hown : admin = get_owner s) :
    (submit_stored_transfer s admin id p).status = TransferStatus.Approved ∧
    (submit_stored_transfer s admin id p).approvals = 1 ∧
    (submit_stored_transfer s admin id p).approvers = [admin] ∧
    (1 < emergency_adjusted_approvals s p →
      submit_transfer s admin id p = Except.ok (submit_pre_exec_state s admin id p) ∧
      mapGet (submit_pre_exec_state s admin id p).pending_transfers id =
        some (submit_stored_transfer s admin id p)) ∧
    (emergency_adjusted_approvals s p ≤ 1 →
      submit_transfer s admin id p =
        execute_transfer (submit_pre_exec_state s admin id p) admin id) := by
  have hstored := submit_stored_owner s admin id p hown hmax
  have hunroll := submit_unroll s admin id p hadm hsd hfresh hpos (Or.inl hmax) hto
  refine ⟨by rw [hstored], by rw [hstored], by rw [hstored], ?_, ?_⟩
  · intro hgt
    have hcan : (submit_stored_transfer s admin id p).can_be_executed = false := by
      rw [hstored]
      simp [PendingTransfer.can_be_executed, PendingTransfer.has_sufficient_approvals]
      omega
    rw [hcan] at hunroll
    simp at hunroll
    obtain ⟨hpend, -, -, -, -⟩ := submit_pre_exec_fields s admin id p
    exact ⟨hunroll, by rw [hpend, mapGet_mapSet_self]⟩
  · intro hle
    have hcan : (submit_stored_transfer s admin id p).can_be_executed = true := by
      rw [hstored]
      simp [PendingTransfer.can_be_executed, PendingTransfer.has_sufficient_approvals]
      omega
    rw [hcan] at hunroll
    simpa using hunroll

/-- C5 witness: applying the amended theorem to the concrete two-admin
treasury `sC0` (quorum 2 > 1): the owner's submit succeeds and stores the
auto-approved record in status `Approved`. -/
theorem c5_owner_submit_amended_witness :
    submit_transfer sC0 1 7 pReg = Except.ok (submit_pre_exec_state sC0 1 7 pReg) ∧
    mapGet (submit_pre_exec_state sC0 1 7 pReg).pending_transfers 7 =
      some (submit_stored_transfer sC0 1 7 pReg) ∧
    (submit_stored_transfer sC0 1 7 pReg).status = TransferStatus.Approved := by
  have h := c5_owner_submit_auto_approves_executes_only_at_quorum_one sC0 1 7 pReg
    (by decide) (by decide) (by decide) (by decide) (by decide) (by decide) (by decide)
  refine ⟨(h.2.2.2.1 (by decide)).1, (h.2.2.2.1 (by decide)).2, h.1⟩

/-- C6: the claim states the statistics aggregate always equals what a
full scan of the records would compute, in particular that
`pending_transfers` equals the number of records in the pending index.
After the two-call sequence submit-then-approve held in `sA2`
(admin 1 approves the quorum-1 transfer), the counter reads 0 while the
pending index still holds 1 record: `approve_transfer` decrements the
counter as soon as approvals suffice, anticipating an execution that
never happens, and leaves the still-`Pending` record in the map. -/
theorem c6_pending_counter_diverges_from_scan :
    sA2.stats.pending_transfers = 0 ∧
    sA2.pending_transfers.length = 1 ∧
    sA2.stats.pending_transfers ≠ sA2.pending_transfers.length := by decide

/-- C7: a second approval by an admin already among a pending record's
approvers fails with the `TransferAlreadyAuthorized` error (the
`AlreadyApproved` kind of the specification's taxonomy) and the committed
state — in particular `approvals_count` and the approvers set — is
exactly the pre-call state. -/
theorem c7_duplicate_approval_rejected
    (s : TreasuryState) (admin : Address) (id : TransferId) (rs : Label)
    (t : PendingTransfer)
    (hadm : s.authorized_admins.contains admin = true)
    (hget : mapGet s.pending_transfers id = some t)
    (hpend : t.status = TransferStatus.Pending)
    (happr : t.approvers.contains admin = true) :
    approve_transfer s admin id rs =
      Except.error (Err.contract ContractError.TransferAlreadyAuthorized) ∧
    stepCommit s (Call.approve admin id rs) = s := by
  have heq : approve_transfer s admin id rs =
      Except.error (Err.contract ContractError.TransferAlreadyAuthorized) := by
    unfold approve_transfer
    rw [require_admin_ok s admin hadm]
    simp only [get_pending_transfer, hget]
    rw [if_neg (by simp [PendingTransfer.is_pending, hpend])]
    rw [if_pos (by simp only [PendingTransfer.has_approved]; exact happr)]
  exact ⟨heq, by simp [stepCommit, applyCall, heq]⟩

/-- C7 witness: in `sA2`, admin 1 already approved transfer 7; that
admin's second approval fails with `TransferAlreadyAuthorized` and
commits nothing. -/
theorem c7_duplicate_approval_rejected_witness :
    approve_transfer sA2 1 7 3 =
      Except.error (Err.contract ContractError.TransferAlreadyAuthorized) ∧
    stepCommit sA2 (Call.approve 1 7 3) = sA2 := by
  exact c7_duplicate_approval_rejected sA2 1 7 3 rA (by decide) (by decide) (by decide)
    (by decide)

/-- C8: the claim states a Pending record can be cancelled exactly by its
original submitter or the treasury owner. The code evaluation below
refutes the submitter direction: admin 1 submits transfer 7 to the
treasury owned by 2, yet admin 1's own cancel fails with `Unauthorized`
and commits nothing — `get_transfer_submitter` ignores the record and
returns the owner, so only the owner's cancel succeeds (and removes the
record). -/
theorem c8_submitter_cannot_cancel_own_transfer :
    submit_transfer sD0 1 7 pReg = Except.ok sD1 ∧
    cancel_transfer sD1 1 7 1 = Except.error (Err.contract ContractError.Unauthorized) ∧
    stepCommit sD1 (Call.cancel 1 7 1) = sD1 ∧
    mapGet sD1.pending_transfers 7 ≠ none ∧
    cancel_transfer sD1 2 7 1 = Except.ok (stepCommit sD1 (Call.cancel 2 7 1)) ∧
    mapGet (stepCommit sD1 (Call.cancel 2 7 1)).pending_transfers 7 = none := by decide

/-- C9: for every statistics state with non-negative balance and every
allocation whose three percentages sum to 100, `rebalance_funds` sets each
sub-fund to `total_balance * percentage / 100` (floor division: the
divisor 100 is positive, so Lean's integer division here is the floor),
the three recomputed balances sum to at most `total_balance`, and the
rounding shortfall is at most 2. -/
theorem c9_rebalance_floor_formula_and_drift_bound
    (st : TreasuryStats) (alloc : FundAllocation)
    (hb : 0 ≤ st.total_balance)
    (hsum : alloc.insurance_percentage + alloc.operational_percentage +
      alloc.emergency_percentage = 100) :
    (st.rebalance_funds alloc).insurance_fund_balance =
      st.total_balance * (alloc.insurance_percentage : Int) / 100 ∧
    (st.rebalance_funds alloc).operational_fund_balance =
      st.total_balance * (alloc.operational_percentage : Int) / 100 ∧
    (st.rebalance_funds alloc).emergency_fund_balance =
      st.total_balance * (alloc.emergency_percentage : Int) / 100 ∧
    (st.rebalance_funds alloc).insurance_fund_balance +
        (st.rebalance_funds alloc).operational_fund_balance +
        (st.rebalance_funds alloc).emergency_fund_balance ≤ st.total_balance ∧
    st.total_balance -
        ((st.rebalance_funds alloc).insurance_fund_balance +
          (st.rebalance_funds alloc).operational_fund_balance +
          (st.rebalance_funds alloc).emergency_fund_balance) ≤ 2 := by
  refine ⟨rfl, rfl, rfl, ?_, ?_⟩ <;>
  · simp only [TreasuryStats.rebalance_funds]
    have hcast : (alloc.insurance_percentage : Int) + (alloc.operational_percentage : Int) +
        (alloc.emergency_percentage : Int) = 100 := by exact_mod_cast hsum
    have key : st.total_balance * (alloc.insurance_percentage : Int) +
        st.total_balance * (alloc.operational_percentage : Int) +
        st.total_balance * (alloc.emergency_percentage : Int) = 100 * st.total_balance := by
      rw [← Int.mul_add, ← Int.mul_add, hcast]
      ring
    generalize st.total_balance * (alloc.insurance_percentage : Int) = x at *
    generalize st.total_balance * (alloc.operational_percentage : Int) = y at *
    generalize st.total_balance * (alloc.emergency_percentage : Int) = z at *
    omega

/-- C9 witness: rebalancing a balance of 101 under the default 60/30/10
allocation yields 60 + 30 + 10 = 100 ≤ 101 with shortfall 1 ≤ 2. -/
theorem c9_rebalance_witness :
    (stW.rebalance_funds FundAllocation.default).insurance_fund_balance =
      stW.total_balance * ((FundAllocation.default).insurance_percentage : Int) / 100 ∧
    (stW.rebalance_funds FundAllocation.default).operational_fund_balance =
      stW.total_balance * ((FundAllocation.default).operational_percentage : Int) / 100 ∧
    (stW.rebalance_funds FundAllocation.default).emergency_fund_balance =
      stW.total_balance * ((FundAllocation.default).emergency_percentage : Int) / 100 ∧
    (stW.rebalance_funds FundAllocation.default).insurance_fund_balance +
        (stW.rebalance_funds FundAllocation.default).operational_fund_balance +
        (stW.rebalance_funds FundAllocation.default).emergency_fund_balance ≤
      stW.total_balance ∧
    stW.total_balance -
        ((stW.rebalance_funds FundAllocation.default).insurance_fund_balance +
          (stW.rebalance_funds FundAllocation.default).operational_fund_balance +
          (stW.rebalance_funds FundAllocation.default).emergency_fund_balance) ≤ 2 := by
  exact c9_rebalance_floor_formula_and_drift_bound stW FundAllocation.default
    (by decide) (by decide)

/-- C10: every record reachable in the pending index after any finite
sequence of calls from a freshly constructed treasury satisfies
`approvals = approvers.length` with duplicate-free approvers: record
creation establishes it and every operation — including the owner
auto-approve path of submit — preserves it, because `add_approval` only
increments the counter when it inserts a new approver. -/
theorem c10_approvals_equal_distinct_approvers
    (owner : Address) (admins : List Address) (cs : List Call)
    (q : TransferId × PendingTransfer)
    (hq : q ∈ (run (initState owner admins) cs).pending_transfers) :
    q.2.approvals = q.2.approvers.length ∧ q.2.approvers.Nodup := by
  have hinit : state_invariant (initState owner admins) := by
    intro p hp
    cases hp
  exact state_invariant_run _ cs hinit q hq

/-- C10 witness: after the single submit in the trace, the stored record
`rF` has 0 approvals and an empty, duplicate-free approver list. -/
theorem c10_approvals_equal_distinct_approvers_witness :
    rF.approvals = rF.approvers.length ∧ rF.approvers.Nodup := by
  exact c10_approvals_equal_distinct_approvers 2 [1] [Call.submit 1 7 pReg] (7, rF) (by decide)

end Reset
